import Mathlib

/-!
Verification development for the python-client-server repository.

Shallow embedding of the connection-dispatch engine: the line framer
(Connection.receive_line), the payload encoder (Connection._encode), the
disconnect-aware send/receive wait loops, the forking disconnect closure,
the server factories and serve_until entry checks, the per-strategy cleanup
paths, the bounded accept/dispatch/reap loops, and the client reconnect
loops.  Strings are lists of characters, byte buffers lists of naturals,
and every blocking primitive is driven by an explicit oracle list; an
exhausted oracle models a call that blocks forever.
-/

/-! ## Line framer: Connection.receive_line

Model of src/Connection/Connection.py lines 75-87; the identical loop also
appears as Connection._receive_line in src/Server/Server.py lines 130-143
(there the chunk size is explicit, which does not affect this model).  The
peer's data arrives as a list of chunks; each receive() call consumes one
chunk; an empty chunk list models a receive() that blocks forever, in which
case the call never returns (none).  The encoding argument only selects the
textual decode and is not modelled; the claims assume a valid encoding. -/

/-- Python str.find for a newline: index of the first newline in the buffer,
none when absent (Python returns -1). -/
def findNl : List Char → Option Nat
  | [] => none
  | c :: rest => if c = '\n' then some 0 else (findNl rest).map (fun i => i + 1)

/-- The truncation adjustment performed inside the receive loop:
if buffer_size is not None and len(buf) > buffer_size and
(nl > buffer_size or nl < 0) then nl = buffer_size - 1. -/
def truncCond (n len : Nat) (nl : Option Nat) : Bool :=
  decide (n < len) && (match nl with | none => true | some k => decide (n < k))

def adjustNl (bufferSize : Option Nat) (len : Nat) (nl : Option Nat) : Option Nat :=
  match bufferSize with
  | none => nl
  | some n => if truncCond n len nl then some (n - 1) else nl

/-- The while-loop of receive_line.  The second argument is the current value
of nl; while it is none (find returned -1) each iteration appends one received
chunk to the line buffer, recomputes nl, and applies the truncation
adjustment.  Returns the final nl, the final line buffer, and the chunks not
yet consumed; none when the chunk list is exhausted before a newline or a
truncation point is found. -/
def receiveLineLoop (bufferSize : Option Nat) :
    List (List Char) → Option Nat → List Char → Option (Nat × List Char × List (List Char))
  | chunks, some nl, buf => some (nl, buf, chunks)
  | [], none, _ => none
  | chunk :: rest, none, buf =>
    receiveLineLoop bufferSize rest
      (adjustNl bufferSize (buf ++ chunk).length (findNl (buf ++ chunk))) (buf ++ chunk)

/-- Connection.receive_line: clamp buffer_size to at least 1, locate the first
newline in the carried-over line buffer, run the receive loop, and split the
final buffer after position nl.  Returns the line, the new line buffer and
the unconsumed chunks. -/
def receive_line (bufferSize : Option Nat) (lineBuffer : List Char)
    (chunks : List (List Char)) : Option (List Char × List Char × List (List Char)) :=
  let bs := bufferSize.map (fun n => max 1 n)
  match receiveLineLoop bs chunks (findNl lineBuffer) lineBuffer with
  | none => none
  | some (nl, buf, rest) => some (buf.take (nl + 1), buf.drop (nl + 1), rest)

/-! ## Error codes and errno values

Error codes from src/Connection/Errors.py; errno constants are the Linux
values used by the socket paths. -/

def E_INVALID_BUFFER_TYPE : Nat := 1
def E_INVALID_ENCODING_NONE : Nat := 2
def E_PARAMETER_IS_NOT_CALLABLE : Nat := 3
def E_CONNECTION_ABORTED : Nat := 4
def E_CONNECTION_RESET : Nat := 5

def EPIPE : Nat := 32
def ECONNABORTED : Nat := 103
def ECONNRESET : Nat := 104

/-- Exceptions raised by the modelled code paths. -/
inductive PyError where
  | connectionError (code : Nat)
  | socketError (errno : Nat)
  | typeError
  deriving DecidableEq

/-! ## Payload encoding: Connection._encode
(src/Connection/Connection.py lines 27-31; the same code appears in
src/Server/Server.py lines 103-107 raising ServerError instead).

A send() payload is an arbitrary Python value.  The builtin
bytes(source, encoding) succeeds only when source is a str: calling it with a
bytes-like source and an encoding, or with encoding None, raises TypeError.
The codec lookup is abstracted (any encoding string is treated as utf8). -/

inductive PyVal where
  | str (s : List Char)
  | bytes (b : List Nat)
  | bytearray (b : List Nat)
  | memoryview (b : List Nat)
  | int (n : Int)
  | noneVal
  | listVal (elems : List Int)
  deriving DecidableEq

/-- utf8 encoding of a character list. -/
def utf8Bytes (s : List Char) : List Nat :=
  (s.map (fun c => (String.utf8EncodeChar c).map (fun b => b.toNat))).flatten

/-- The Python builtin bytes(source, encoding). -/
def pyBytes (source : PyVal) (encoding : Option (List Char)) : Except PyError (List Nat) :=
  match source, encoding with
  | .str s, some _ => .ok (utf8Bytes s)
  | _, _ => .error .typeError

/-- The isinstance(buffer, (str, bytes, bytearray, memoryview)) test. -/
def isBufferLike (v : PyVal) : Bool :=
  match v with
  | .str _ | .bytes _ | .bytearray _ | .memoryview _ => true
  | _ => false

/-- Connection._encode: raise ConnectionError(E_INVALID_BUFFER_TYPE) when the
payload is not str/bytes/bytearray/memoryview, otherwise return
bytes(buffer, encoding). -/
def Connection_encode (buffer : PyVal) (encoding : Option (List Char)) :
    Except PyError (List Nat) :=
  if isBufferLike buffer then pyBytes buffer encoding
  else .error (.connectionError E_INVALID_BUFFER_TYPE)

/-! ## Disconnect-aware socket send and receive
(src/Connection/SocketConnection.py lines 25-48).

Each iteration of a wait loop reads the disconnect property and then polls
the socket; one WaitObs per iteration records the observed predicate value
and the (read, write) poll result.  The oracle list exhausting models a loop
that spins forever, and the call returns none. -/

structure WaitObs where
  disc : Bool
  read : Bool
  write : Bool
  deriving DecidableEq

inductive WaitOutcome where
  | aborted
  | ready
  deriving DecidableEq

/-- The wait loop of _SocketConnection.send: raise when the disconnect
predicate is true, break when poll reports write-ready. -/
def sockSendWait : List WaitObs → Option WaitOutcome
  | [] => none
  | o :: rest => if o.disc then some .aborted else if o.write then some .ready else sockSendWait rest

/-- The wait loop of _SocketConnection.receive: raise when the disconnect
predicate is true, break when poll reports read-ready. -/
def sockRecvWait : List WaitObs → Option WaitOutcome
  | [] => none
  | o :: rest => if o.disc then some .aborted else if o.read then some .ready else sockRecvWait rest

/-- _SocketConnection.send: wait for write-readiness, raising
socket.error(ECONNABORTED) when the disconnect predicate turns true first;
then encode the payload with _encode and hand the bytes to sendall, whose
result is the sendallResult oracle (success, or an OS error such as a broken
pipe) and is surfaced unchanged.  ok carries the bytes handed to the
transport; an error outcome transfers none. -/
def socketSend (obs : List WaitObs) (buffer : PyVal) (encoding : Option (List Char))
    (sendallResult : Except PyError Unit) : Option (Except PyError (List Nat)) :=
  match sockSendWait obs with
  | none => none
  | some .aborted => some (.error (.socketError ECONNABORTED))
  | some .ready =>
    match Connection_encode buffer encoding with
    | .error e => some (.error e)
    | .ok bs =>
      match sendallResult with
      | .error e => some (.error e)
      | .ok _ => some (.ok bs)

/-- _SocketConnection.receive: wait for read-readiness with the same
disconnect check; then recv is called (recvResult oracle); zero received
bytes raise socket.error(ECONNRESET); otherwise the bytes are decoded and
returned (the textual decode itself is not modelled here). -/
def socketReceive (obs : List WaitObs) (recvResult : Except PyError (List Nat)) :
    Option (Except PyError (List Nat)) :=
  match sockRecvWait obs with
  | none => none
  | some .aborted => some (.error (.socketError ECONNABORTED))
  | some .ready =>
    match recvResult with
    | .error e => some (.error e)
    | .ok bs => if bs.length = 0 then some (.error (.socketError ECONNRESET)) else some (.ok bs)

/-! ## Serial connection disconnect property and send
(src/Connection/SerialConnection.py lines 114-124 and 163-171). -/

structure SerialObs where
  disc : Bool
  reset : Bool
  deriving DecidableEq

/-- The disconnect property of _SerialConnection: evaluate the external
predicate and the background reader's connection_reset flag; when the reset
flag is set raise ConnectionError(E_CONNECTION_RESET), otherwise return the
predicate value (the transport-thread stop side effect is not modelled). -/
def serialDisconnect (o : SerialObs) : Except PyError Bool :=
  if o.reset then .error (.connectionError E_CONNECTION_RESET)
  else .ok o.disc

/-- _SerialConnection.send for a str payload: poll() always reports a serial
port write-ready, so each pass of the wait loop evaluates the disconnect
property once and breaks; protocol.write returns the length of the encoded
bytes, which is at least the number of remaining characters, so the outer
while total < len(buffer) loop finishes after one successful write.  An empty
payload performs no checks.  writeResult is the oracle for protocol.write
(a SerialException there surfaces as ConnectionError(E_CONNECTION_RESET)). -/
def serialSend (o : SerialObs) (buffer : List Char) (encoding : Option (List Char))
    (writeResult : Except PyError Unit) : Except PyError (List Nat) :=
  if buffer.length = 0 then .ok []
  else
    match serialDisconnect o with
    | .error e => .error e
    | .ok true => .error (.connectionError E_CONNECTION_ABORTED)
    | .ok false =>
      match Connection_encode (.str buffer) encoding with
      | .error e => .error e
      | .ok bs =>
        match writeResult with
        | .error e => .error e
        | .ok _ => .ok bs

/-- One iteration of the wait loop of _SerialConnection.receive
(src/Connection/SerialConnection.py lines 129-137): the value the external
predicate would return, the background reader's connection_reset flag, and
the contents of the protocol receive buffer, whose non-emptiness is the
read-readiness poll() reports. -/
structure SerialRecvObs where
  disc : Bool
  reset : Bool
  buffered : List Nat
  deriving DecidableEq

/-- The wait loop of _SerialConnection.receive: each iteration evaluates the
disconnect property (a recorded reset raises ConnectionReset, then a true
predicate raises ConnectionAborted) and then polls; it breaks when the
protocol buffer is nonempty, returning that buffer.  A read error observed
by the background reader is what sets the reset flag, so a serial transport
error during receive surfaces here as the ConnectionReset branch. -/
def serialRecvWait : List SerialRecvObs → Option (Except PyError (List Nat))
  | [] => none
  | o :: rest =>
    if o.reset then some (.error (.connectionError E_CONNECTION_RESET))
    else if o.disc then some (.error (.connectionError E_CONNECTION_ABORTED))
    else if o.buffered.isEmpty then serialRecvWait rest
    else some (.ok o.buffered)

/-- _SerialConnection.receive: run the wait loop; after it breaks, clamp
buffer_size to at least 1 and return protocol.read(buffer_size), the first
buffer_size bytes of the protocol buffer (the textual decode itself is not
modelled here, as for socketReceive). -/
def serialReceive (obs : List SerialRecvObs) (bufferSize : Nat) :
    Option (Except PyError (List Nat)) :=
  match serialRecvWait obs with
  | none => none
  | some (.error e) => some (.error e)
  | some (.ok buffered) => some (.ok (buffered.take (max 1 bufferSize)))

/-! ## Forking disconnect closure: _ForkingSocketServer._disconnect
(src/Server/SocketServer.py lines 90-106; the identical closure appears as
_ForkingSerialServer._disconnect in src/Server/SerialServer.py lines 60-76).

The pipe is created by Pipe(False) before os.fork(), so the child inherits
its own open copy of the write end, which the handler-running child never
closes (its finally block closes only pipe_read).  From the child's read end
the write side therefore stays open for the whole handler invocation, even
after the parent closes its own copy: poll() reports true exactly when a
message is queued, and recv_bytes is only reached then, so it always returns
a queued message and never raises.  The read end is modelled as the queue of
pending messages. -/

def disconnectMessage : List Char := ['d', 'i', 's', 'c', 'o', 'n', 'n', 'e', 'c', 't']

structure PipeReadEnd where
  messages : List (List Char)
  deriving DecidableEq

def pipePoll (p : PipeReadEnd) : Bool :=
  !p.messages.isEmpty

/-- One evaluation of the closure returned by _disconnect: disconnect starts
false; when poll reports readable, recv_bytes the next message and set
disconnect when it decodes to 'disconnect'.  Returns the predicate value and
the pipe state after the evaluation. -/
def disconnectClosureStep (p : PipeReadEnd) : Bool × PipeReadEnd :=
  match p.messages with
  | [] => (false, p)
  | m :: rest => (decide (m = disconnectMessage), ⟨rest⟩)

/-- The pipe as the parent's stop path leaves it
(src/Server/SocketServer.py lines 195-197): the single message 'disconnect'
is sent, once; the parent then closes only its own copy of the write end,
which the child's inherited copy keeps open. -/
def parentStopPipe : PipeReadEnd := ⟨[disconnectMessage]⟩

/-! ## serve_until entry check of the socket servers
(src/Server/SocketServer.py lines 125-127, 258-260, 316-318).

The callable check is the first statement of serve_until, before listen(1),
before any accept and before any dispatch.  Its raise statement references
the name E_PARAMETER_IS_NOT_CALLABLE, which must resolve in the module
namespace of src/Server/SocketServer.py; that namespace holds the names the
module header imports explicitly plus the public names of
src/Server/Errors.py (lines 1-11), which defines only the four codes up to
E_HANDLER_NOT_CALLABLE. -/

def serverErrorsPublicNames : List String :=
  ["E_INTEGRAL_PORT", "E_INVALID_IP_ADDRESS", "E_PATH_EXISTS_BUT_NOT_SOCKET",
   "E_HANDLER_NOT_CALLABLE"]

def socketServerModuleNames : List String :=
  ["os", "stat", "errno", "time", "socket", "threading", "logging", "Pipe",
   "Connection", "Server", "ServerError", "UNUSED", "_error2string", "logger"] ++
  serverErrorsPublicNames

inductive ServeStart where
  | enteredAcceptLoop
  | raisedServerError (code : Nat)
  | raisedNameError (missing : String)
  deriving DecidableEq

/-- The entry of serve_until: if not callable(serve), execute
raise ServerError(E_PARAMETER_IS_NOT_CALLABLE, ...); evaluating that raise
first looks the code name up in the module namespace, and when it is absent
Python raises NameError at that line instead, still before the listen/accept
loop is entered. -/
def serve_untilStart (serveCallable : Bool) : ServeStart :=
  if serveCallable then .enteredAcceptLoop
  else if socketServerModuleNames.contains "E_PARAMETER_IS_NOT_CALLABLE" then
    .raisedServerError E_PARAMETER_IS_NOT_CALLABLE
  else .raisedNameError "E_PARAMETER_IS_NOT_CALLABLE"

/-! ## Server factories
(src/Server/Server.py lines 49-89, constructor chain in
src/Server/SocketServer.py lines 352-358 and 376-382, _SocketServer.__init__
at lines 25-31, and Server.__init__ at src/Server/Server.py lines 29-33).

Python binds a positional call against a signature, given as the number of
required parameters and of parameters with defaults (self excluded); a call
with fewer positional arguments than required, or more than the total,
raises TypeError before the body runs. -/

structure PySig where
  required : Nat
  defaults : Nat
  deriving DecidableEq

def bindsOk (sig : PySig) (nargs : Nat) : Bool :=
  decide (sig.required ≤ nargs) && decide (nargs ≤ sig.required + sig.defaults)

/-- _ForkingTCPSocketServer.__init__(self, server_type, handler, address,
port, max_connections). -/
def forkingTCPInitSig : PySig := ⟨5, 0⟩

/-- _ThreadingTCPSocketServer.__init__ has the same five parameters. -/
def threadingTCPInitSig : PySig := ⟨5, 0⟩

/-- The tcp entry of Server.create_forking:
lambda _handler, address, port, max_connections=1. -/
def forkingTCPLambdaSig : PySig := ⟨3, 1⟩

/-- Its body passes 4 positional arguments to _ForkingTCPSocketServer. -/
def forkingTCPLambdaBodyArgs : Nat := 4

/-- The tcp entry of Server.create_threading has the same shape. -/
def threadingTCPLambdaSig : PySig := ⟨3, 1⟩

def threadingTCPLambdaBodyArgs : Nat := 4

/-- Server.__init__(self, address, handler) in src/Server/Server.py. -/
def serverBaseInitSig : PySig := ⟨2, 0⟩

/-- _SocketServer.__init__ calls super().__init__(server_type, address,
handler): 3 positional arguments. -/
def socketServerSuperArgs : Nat := 3

inductive FactoryResult where
  | dispatcher
  | typeError
  deriving DecidableEq

/-- Server.create_forking('tcp', handler, *args): the classmethod forwards
(handler, *args) to the tcp lambda; when that call binds, the lambda body
calls _ForkingTCPSocketServer with forkingTCPLambdaBodyArgs positional
arguments; when that binds, the constructor chain reaches Server.__init__
through _SocketServer.__init__ with socketServerSuperArgs arguments.  Any
binding failure raises TypeError; otherwise the dispatcher is returned. -/
def createForkingTCP (nargs : Nat) : FactoryResult :=
  if !bindsOk forkingTCPLambdaSig nargs then .typeError
  else if !bindsOk forkingTCPInitSig forkingTCPLambdaBodyArgs then .typeError
  else if !bindsOk serverBaseInitSig socketServerSuperArgs then .typeError
  else .dispatcher

/-- Server.create_threading('tcp', handler, *args), same chain through the
threading classes. -/
def createThreadingTCP (nargs : Nat) : FactoryResult :=
  if !bindsOk threadingTCPLambdaSig nargs then .typeError
  else if !bindsOk threadingTCPInitSig threadingTCPLambdaBodyArgs then .typeError
  else if !bindsOk serverBaseInitSig socketServerSuperArgs then .typeError
  else .dispatcher

/-- The attributes defined on the Server class of src/Server/Server.py:
this revision has no create classmethod, so an attribute access Server.create
raises AttributeError. -/
def serverClassAttrs : List String :=
  ["__init__", "serve_forever", "create_forking", "create_threading"]

/-! ## Client reconnect loops
(src/Client/SocketClient.py lines 41-70; src/Client/SerialClient.py lines
38-74).

One HandlerEnd per session records how that handler invocation ended; the
connect/open phase is taken as successful for each attempted session (the
refused-connection retry loop lives in _connect and is not under test here).
The oracle list exhausting models a loop that would run further sessions. -/

inductive HandlerEnd where
  | ret
  | aborted
  | reset
  | brokenPipe
  | otherError
  deriving DecidableEq

structure ClientRun where
  sessions : Nat
  closes : Nat
  raised : Option HandlerEnd
  deriving DecidableEq

/-- _SocketClient.connect: run the handler; on socket.error with
errno ECONNABORTED log and break; on ECONNRESET/EPIPE with a reconnect
throttle configured sleep and continue, without one re-raise; any other
exception propagates; after a normal return break.  The finally block closes
the connection on every path before the loop continues or the call
returns. -/
def socketClientConnect (reconnect : Option Nat) : List HandlerEnd → Option ClientRun
  | [] => none
  | e :: rest =>
    match e with
    | .ret => some ⟨1, 1, none⟩
    | .aborted => some ⟨1, 1, none⟩
    | .reset =>
      match reconnect with
      | some _ => (socketClientConnect reconnect rest).map
          (fun r => ⟨r.sessions + 1, r.closes + 1, r.raised⟩)
      | none => some ⟨1, 1, some .reset⟩
    | .brokenPipe =>
      match reconnect with
      | some _ => (socketClientConnect reconnect rest).map
          (fun r => ⟨r.sessions + 1, r.closes + 1, r.raised⟩)
      | none => some ⟨1, 1, some .brokenPipe⟩
    | .otherError => some ⟨1, 1, some .otherError⟩

/-- _SerialClient.connect: the loop runs while the disconnect predicate is
false (first component of each oracle entry); the handler's ConnectionError
with code E_CONNECTION_ABORTED logs and breaks; E_CONNECTION_RESET with a
reconnect throttle sleeps and continues, without one it re-raises; any other
exception propagates; a normal return does not break - the serial client
loops into another session.  The finally block closes on every path.
brokenPipe stands for a ConnectionError with any other code. -/
def serialClientConnect (reconnect : Option Nat) : List (Bool × HandlerEnd) → Option ClientRun
  | [] => none
  | (d, e) :: rest =>
    if d then some ⟨0, 0, none⟩
    else
      match e with
      | .aborted => some ⟨1, 1, none⟩
      | .reset =>
        match reconnect with
        | some _ => (serialClientConnect reconnect rest).map
            (fun r => ⟨r.sessions + 1, r.closes + 1, r.raised⟩)
        | none => some ⟨1, 1, some .reset⟩
      | .ret => (serialClientConnect reconnect rest).map
          (fun r => ⟨r.sessions + 1, r.closes + 1, r.raised⟩)
      | .brokenPipe => some ⟨1, 1, some .brokenPipe⟩
      | .otherError => some ⟨1, 1, some .otherError⟩

/-! ## Per-strategy handler cleanup
(src/Server/SocketServer.py: forking child block lines 140-163,
HandlerThread.run lines 218-233, iterative body lines 326-346;
src/Server/SerialServer.py: forking child block lines 113-131 and parent
arm lines 132-151, iterative body lines 272-289, HandlerThread.run lines
172-193 and serve_until close at line 234.)

A handler invocation ends in one of the HandlerOutcome ways.  Each unit model
reports whether the handler ran, how many times the unit itself closed the
connection, the child's exit status where the unit is a forked process, and
whether an exception escaped the unit. -/

inductive HandlerOutcome where
  | returns (status : PyVal)
  | raisesSocketError (errno : Nat)
  | raisesConnectionError (code : Nat)
  | raisesOther
  deriving DecidableEq

structure UnitCleanup where
  handlerRan : Bool
  closesInUnit : Nat
  exitStatus : Option Int
  escaped : Bool
  deriving DecidableEq

/-- status starts at 0, is replaced by an integral handler return, and is
overruled back to 0 in the finally block when not an int. -/
def normStatus (out : HandlerOutcome) : Int :=
  match out with
  | .returns (.int n) => n
  | _ => 0

/-- The inner except clause of the socket units: except socket.error absorbs
errno ECONNRESET/ECONNABORTED/EPIPE and re-raises other socket errors; other
exceptions pass through. -/
def socketHandlerPending (out : HandlerOutcome) : Option HandlerOutcome :=
  match out with
  | .returns _ => none
  | .raisesSocketError c =>
    if c = ECONNRESET || c = ECONNABORTED || c = EPIPE then none
    else some (.raisesSocketError c)
  | e => some e

/-- The inner except clause of the serial units: except ConnectionError
absorbs E_CONNECTION_RESET/E_CONNECTION_ABORTED and re-raises other codes;
other exceptions pass through. -/
def serialHandlerPending (out : HandlerOutcome) : Option HandlerOutcome :=
  match out with
  | .returns _ => none
  | .raisesConnectionError c =>
    if c = E_CONNECTION_RESET || c = E_CONNECTION_ABORTED then none
    else some (.raisesConnectionError c)
  | e => some e

/-- The outer except Exception clause: whatever is still pending is logged
and absorbed. -/
def absorbAll (pending : Option HandlerOutcome) : Option HandlerOutcome :=
  match pending with
  | some _ => none
  | none => none

/-- The forked child of _ForkingSocketServer.serve_until: both except layers,
then the finally block closes the connection, closes the pipe read end,
normalizes status and calls os._exit(status). -/
def forkingSocketChild (out : HandlerOutcome) : UnitCleanup :=
  ⟨true, 1, some (normStatus out), (absorbAll (socketHandlerPending out)).isSome⟩

/-- _ThreadingSocketServer.HandlerThread.run: same except layers; the finally
block closes the connection and normalizes self._status; the thread does not
exit the process. -/
def threadingSocketRun (out : HandlerOutcome) : UnitCleanup :=
  ⟨true, 1, none, (absorbAll (socketHandlerPending out)).isSome⟩

/-- The per-connection body of _IterativeSocketServer.serve_until: same
except layers; the finally block closes the connection and normalizes
status. -/
def iterativeSocketBody (out : HandlerOutcome) : UnitCleanup :=
  ⟨true, 1, none, (absorbAll (socketHandlerPending out)).isSome⟩

/-- The per-connection body of _IterativeSerialServer.serve_until
(src/Server/SerialServer.py lines 272-289): serial except layers; the
finally block closes the serial connection and normalizes status - here the
concurrency unit is the dispatcher's own control flow, and it does close. -/
def iterativeSerialBody (out : HandlerOutcome) : UnitCleanup :=
  ⟨true, 1, none, (absorbAll (serialHandlerPending out)).isSome⟩

/-- The forked child of _ForkingSerialServer.serve_until: serial except
layers; the finally block only logs, normalizes status and calls
os._exit(status) - it does not close the serial connection. -/
def forkingSerialChild (out : HandlerOutcome) : UnitCleanup :=
  ⟨true, 0, some (normStatus out), (absorbAll (serialHandlerPending out)).isSome⟩

/-- How the parent arm of _ForkingSerialServer.serve_until ended: how many
times it called _close_connection, and whether waitpid had reported the
child finished when the close ran. -/
structure SerialParentExit where
  closes : Nat
  childReaped : Bool
  deriving DecidableEq

/-- The parent arm of _ForkingSerialServer.serve_until
(src/Server/SerialServer.py lines 132-151): while serve() is true, poll
waitpid for the child until it is reported finished (or ECHILD); each oracle
entry gives one iteration's serve() value and whether waitpid reported the
child finished.  On leaving the loop - at the first finished report, or at a
false serve() value while the child may still be running - the parent sends
the disconnect message, closes the pipe write end and calls
_close_connection() exactly once.  none models the loop still spinning when
the oracle is exhausted. -/
def serialForkingParentWait : List (Bool × Bool) → Option SerialParentExit
  | [] => none
  | (srv, finished) :: rest =>
    if !srv then some ⟨1, false⟩
    else if finished then some ⟨1, true⟩
    else serialForkingParentWait rest

/-- _ThreadingSerialServer.HandlerThread.run: serial except layers; the
finally block only logs and normalizes self._status - no close. -/
def threadingSerialRun (out : HandlerOutcome) : UnitCleanup :=
  ⟨true, 0, none, (absorbAll (serialHandlerPending out)).isSome⟩

/-- _ThreadingSerialServer.serve_until closes the serial connection once,
after thread.join(), in the dispatcher. -/
def threadingSerialDispatcherCloses : Nat := 1

/-! ## Bounded accept/dispatch/reap loop of the forking socket server
(src/Server/SocketServer.py lines 125-197).

A state carries the remaining serve() oracle (one Bool consumed per
evaluation of the outer or inner while condition), the accept oracle (true
means accept returned a connection, false a socket.timeout), the reap oracle
(for each scan of the children list, the pids os.waitpid reports finished or
ECHILD), the parent's children list of forked pids, the pid the next fork
will return, and the control position: outer just before the outer while
condition, inner just before the inner while condition, stopped once
serve_until has left the loop (the trailing for loop only sends disconnect
messages and closes pipe ends) or an exception has propagated out of it.
Every pid whose handler may still be running is in the children list - an
entry leaves the list only after waitpid has reported the child finished -
so the length of the list bounds the number of active handler invocations. -/

inductive SrvMode where
  | outer
  | inner
  | stopped
  deriving DecidableEq

structure ForkSrvState where
  serves : List Bool
  accepts : List Bool
  reaps : List (List Nat)
  children : List Nat
  nextPid : Nat
  mode : SrvMode
  deriving DecidableEq

/-- One observable transition of _ForkingSocketServer.serve_until, parent
process only (the child path is modelled separately as forkingSocketChild):
the outer condition evaluating false leaves the loop; a timed-out accept
re-runs the outer loop; a successful accept forks, appends the child pid and
enters the inner wait loop (os.fork failing raises out of serve_until); the
inner condition evaluating false falls back to the outer condition; the
inner condition evaluating true scans the children list, removes every pid
the reap oracle reports finished, and breaks to the outer condition exactly
when the list is below max_connections. -/
inductive ForkStep (K : Nat) : ForkSrvState → ForkSrvState → Prop where
  | outerStop {s : ForkSrvState} {r : List Bool} :
      s.mode = .outer → s.serves = false :: r →
      ForkStep K s { s with serves := r, mode := .stopped }
  | outerTimeout {s : ForkSrvState} {r : List Bool} {ar : List Bool} :
      s.mode = .outer → s.serves = true :: r → s.accepts = false :: ar →
      ForkStep K s { s with serves := r, accepts := ar }
  | outerAccept {s : ForkSrvState} {r : List Bool} {ar : List Bool} :
      s.mode = .outer → s.serves = true :: r → s.accepts = true :: ar →
      ForkStep K s { s with serves := r, accepts := ar, children := s.children ++ [s.nextPid], nextPid := s.nextPid + 1, mode := .inner }
  | outerForkFail {s : ForkSrvState} {r : List Bool} {ar : List Bool} :
      s.mode = .outer → s.serves = true :: r → s.accepts = true :: ar →
      ForkStep K s { s with serves := r, accepts := ar, mode := .stopped }
  | innerStop {s : ForkSrvState} {r : List Bool} :
      s.mode = .inner → s.serves = false :: r →
      ForkStep K s { s with serves := r, mode := .outer }
  | innerScan {s : ForkSrvState} {r : List Bool} {f : List Nat}
      {fr : List (List Nat)} :
      s.mode = .inner → s.serves = true :: r → s.reaps = f :: fr →
      ForkStep K s { s with serves := r, reaps := fr, children := s.children.filter (fun pid => !f.contains pid), mode := if (s.children.filter (fun pid => !f.contains pid)).length < K then .outer else .inner }

def ForkReach (K : Nat) : ForkSrvState → ForkSrvState → Prop :=
  Relation.ReflTransGen (ForkStep K)

/-- serve_until starts with an empty children list, in front of the outer
while condition. -/
def forkInit (serves accepts : List Bool) (reaps : List (List Nat)) : ForkSrvState :=
  ⟨serves, accepts, reaps, [], 1, .outer⟩

/-- A stop predicate that behaves as the spec's signal contract demands:
once an evaluation returns false, every later evaluation returns false. -/
def monoFalseB : List Bool → Bool
  | [] => true
  | true :: r => monoFalseB r
  | false :: r => r.all (fun b => !b)

/-- Invariant carried through the loop: the children list never exceeds
max_connections, the remaining serve oracle stays monotone, and in front of
the outer condition either a slot is free or the predicate has stopped. -/
def ForkInv (K : Nat) (s : ForkSrvState) : Prop :=
  s.children.length ≤ K ∧ monoFalseB s.serves = true ∧
  (s.mode = .outer → s.children.length < K ∨ s.serves.all (fun b => !b) = true)

/-! ## Bounded accept/dispatch/reap loop of the threading socket server
(src/Server/SocketServer.py lines 258-295).

Identical control structure: a successful accept creates the Connection and
the HandlerThread, starts it and appends it; the inner loop scans the thread
list, removes every thread whose is_alive() is false (the deaths oracle
lists the dead thread ids per scan), and breaks to the outer condition when
the list is below max_connections.  The trailing for loop after the outer
loop only joins the remaining threads. -/

structure ThreadSrvState where
  serves : List Bool
  accepts : List Bool
  deaths : List (List Nat)
  threads : List Nat
  nextTid : Nat
  mode : SrvMode
  deriving DecidableEq

inductive ThreadStep (K : Nat) : ThreadSrvState → ThreadSrvState → Prop where
  | outerStop {s : ThreadSrvState} {r : List Bool} :
      s.mode = .outer → s.serves = false :: r →
      ThreadStep K s { s with serves := r, mode := .stopped }
  | outerTimeout {s : ThreadSrvState} {r : List Bool} {ar : List Bool} :
      s.mode = .outer → s.serves = true :: r → s.accepts = false :: ar →
      ThreadStep K s { s with serves := r, accepts := ar }
  | outerAccept {s : ThreadSrvState} {r : List Bool} {ar : List Bool} :
      s.mode = .outer → s.serves = true :: r → s.accepts = true :: ar →
      ThreadStep K s { s with serves := r, accepts := ar, threads := s.threads ++ [s.nextTid], nextTid := s.nextTid + 1, mode := .inner }
  | innerStop {s : ThreadSrvState} {r : List Bool} :
      s.mode = .inner → s.serves = false :: r →
      ThreadStep K s { s with serves := r, mode := .outer }
  | innerScan {s : ThreadSrvState} {r : List Bool} {f : List Nat}
      {fr : List (List Nat)} :
      s.mode = .inner → s.serves = true :: r → s.deaths = f :: fr →
      ThreadStep K s { s with serves := r, deaths := fr, threads := s.threads.filter (fun tid => !f.contains tid), mode := if (s.threads.filter (fun tid => !f.contains tid)).length < K then .outer else .inner }

def ThreadReach (K : Nat) : ThreadSrvState → ThreadSrvState → Prop :=
  Relation.ReflTransGen (ThreadStep K)

def threadInit (serves accepts : List Bool) (deaths : List (List Nat)) : ThreadSrvState :=
  ⟨serves, accepts, deaths, [], 1, .outer⟩

def ThreadInv (K : Nat) (s : ThreadSrvState) : Prop :=
  s.threads.length ≤ K ∧ monoFalseB s.serves = true ∧
  (s.mode = .outer → s.threads.length < K ∨ s.serves.all (fun b => !b) = true)

example : receive_line (some 2) [] [['a', 'a', '\n']] =
    some (['a', 'a', '\n'], [], []) := by decide

example : receive_line (some 2) [] [['a'], ['b', 'c', 'd'], ['e', '\n']] =
    some (['a', 'b'], ['c', 'd'], [['e', '\n']]) := by decide

example : receive_line none ['a', '\n', 'b'] [] = some (['a', '\n'], ['b'], []) := by decide

/-! ### Lemmas about findNl and the receive loop -/

theorem findNl_lt_length : ∀ {l : List Char} {k : Nat}, findNl l = some k → k < l.length := by
  intro l
  induction l with
  | nil => intro k h; simp [findNl] at h
  | cons c rest ih =>
    intro k h
    by_cases hc : c = '\n'
    · simp [findNl, hc] at h
      simp [← h]
    · simp only [findNl, hc, if_false, Option.map_eq_some'] at h
      obtain ⟨k0, hk0, hk⟩ := h
      have := ih hk0
      simp [List.length_cons]
      omega

theorem findNl_first : ∀ {l : List Char} {k : Nat}, findNl l = some k →
    l.take (k + 1) = l.take k ++ ['\n'] ∧ '\n' ∉ l.take k := by
  intro l
  induction l with
  | nil => intro k h; simp [findNl] at h
  | cons c rest ih =>
    intro k h
    by_cases hc : c = '\n'
    · simp [findNl, hc] at h
      subst hc
      simp [← h]
    · simp only [findNl, hc, if_false, Option.map_eq_some'] at h
      obtain ⟨k0, hk0, hk⟩ := h
      obtain ⟨h1, h2⟩ := ih hk0
      subst hk
      refine ⟨?_, ?_⟩
      · simp [List.take_cons, h1]
      · simp [List.take_cons, h2]
        exact fun hcontra => hc hcontra.symm

theorem findNl_none_notMem : ∀ {l : List Char}, findNl l = none → '\n' ∉ l := by
  intro l
  induction l with
  | nil => intro _ h; simp at h
  | cons c rest ih =>
    intro h
    by_cases hc : c = '\n'
    · simp [findNl, hc] at h
    · simp only [findNl, hc, if_false, Option.map_eq_none'] at h
      simp [ih h]
      exact fun hcontra => hc hcontra.symm

theorem findNl_notMem_take {l : List Char} {k m : Nat} (h : findNl l = some k)
    (hm : m ≤ k) : '\n' ∉ l.take m := by
  intro hmem
  have h2 := (findNl_first h).2
  have : l.take m = (l.take k).take m := by
    rw [List.take_take, Nat.min_eq_left hm]
  rw [this] at hmem
  exact h2 (List.take_subset _ _ hmem)

theorem receiveLineLoop_join {bs : Option Nat} :
    ∀ (chunks : List (List Char)) (nl0 : Option Nat) (buf : List Char)
      {nl : Nat} {b : List Char} {r : List (List Char)},
      receiveLineLoop bs chunks nl0 buf = some (nl, b, r) →
      b ++ r.flatten = buf ++ chunks.flatten := by
  intro chunks
  induction chunks with
  | nil =>
    intro nl0 buf nl b r h
    cases nl0 with
    | some v => simp [receiveLineLoop] at h; simp [h]
    | none => simp [receiveLineLoop] at h
  | cons c rest ih =>
    intro nl0 buf nl b r h
    cases nl0 with
    | some v => simp [receiveLineLoop] at h; simp [h]
    | none =>
      simp only [receiveLineLoop] at h
      have := ih _ _ h
      simp only [List.flatten_cons, this]
      simp

theorem receiveLineLoop_unbounded :
    ∀ (chunks : List (List Char)) (nl0 : Option Nat) (buf : List Char)
      {nl : Nat} {b : List Char} {r : List (List Char)},
      receiveLineLoop none chunks nl0 buf = some (nl, b, r) →
      nl0 = findNl buf → findNl b = some nl := by
  intro chunks
  induction chunks with
  | nil =>
    intro nl0 buf nl b r h h0
    cases nl0 with
    | some v =>
      simp [receiveLineLoop] at h
      obtain ⟨h1, h2, -⟩ := h
      subst h1; subst h2
      exact h0.symm
    | none => simp [receiveLineLoop] at h
  | cons c rest ih =>
    intro nl0 buf nl b r h h0
    cases nl0 with
    | some v =>
      simp [receiveLineLoop] at h
      obtain ⟨h1, h2, -⟩ := h
      subst h1; subst h2
      exact h0.symm
    | none =>
      simp only [receiveLineLoop, adjustNl] at h
      exact ih _ _ h rfl

theorem receiveLineLoop_bounded {N : Nat} :
    ∀ (chunks : List (List Char)) (buf : List Char)
      {nl : Nat} {b : List Char} {r : List (List Char)},
      receiveLineLoop (some N) chunks none buf = some (nl, b, r) →
      (findNl b = some nl ∧ nl ≤ N) ∨
      (nl = N - 1 ∧ N < b.length ∧ ∀ k, findNl b = some k → N < k) := by
  intro chunks
  induction chunks with
  | nil => intro buf nl b r h; simp [receiveLineLoop] at h
  | cons c rest ih =>
    intro buf nl b r h
    simp only [receiveLineLoop] at h
    cases hA : adjustNl (some N) (buf ++ c).length (findNl (buf ++ c)) with
    | none =>
      rw [hA] at h
      exact ih _ h
    | some v =>
      rw [hA] at h
      simp [receiveLineLoop] at h
      obtain ⟨hnl, hb, hr⟩ := h
      subst hnl; subst hb; subst hr
      simp only [adjustNl] at hA
      by_cases htc : truncCond N (buf ++ c).length (findNl (buf ++ c)) = true
      · rw [if_pos htc] at hA
        injection hA with hv
        simp only [truncCond, Bool.and_eq_true, decide_eq_true_eq] at htc
        right
        refine ⟨hv.symm, htc.1, ?_⟩
        intro k hk
        have h2 := htc.2
        rw [hk] at h2
        simpa using h2
      · rw [if_neg htc] at hA
        left
        have hlt := findNl_lt_length hA
        simp only [truncCond, Bool.and_eq_true, decide_eq_true_eq] at htc
        refine ⟨hA, ?_⟩
        rcases Nat.lt_or_ge N (buf ++ c).length with hlen | hlen
        · by_contra hvN
          apply htc
          refine ⟨hlen, ?_⟩
          rw [hA]
          simp
          omega
        · omega

/-! ### Claims about receive_line -/

/-- C10: every line returned by receive_line with buffer_size = None is
nonempty, ends in a newline, contains no other newline, and together with the
kept line buffer and the unconsumed chunks reassembles the carried-over buffer
plus all received chunks; the position of the first newline of the buffered
data is the last position of the line, so the line is exactly the buffered
prefix up to and including the first newline. -/
theorem receive_line_unbounded_exact (lineBuffer : List Char)
    (chunks : List (List Char)) (line rest : List Char) (rem : List (List Char))
    (h : receive_line none lineBuffer chunks = some (line, rest, rem)) :
    (∃ pre, line = pre ++ ['\n'] ∧ '\n' ∉ pre) ∧
    line ++ (rest ++ rem.flatten) = lineBuffer ++ chunks.flatten ∧
    findNl (line ++ rest) = some (line.length - 1) := by
  simp only [receive_line, Option.map_none'] at h
  cases hl : receiveLineLoop none chunks (findNl lineBuffer) lineBuffer with
  | none => rw [hl] at h; simp at h
  | some v =>
    obtain ⟨nl, b, r⟩ := v
    rw [hl] at h
    simp only [Option.some.injEq, Prod.mk.injEq] at h
    obtain ⟨h1, h2, h3⟩ := h
    subst h1; subst h2; subst h3
    have hfind : findNl b = some nl := receiveLineLoop_unbounded chunks _ lineBuffer hl rfl
    have hjoin : b ++ r.flatten = lineBuffer ++ chunks.flatten :=
      receiveLineLoop_join chunks _ lineBuffer hl
    have hsplit : b.take (nl + 1) ++ b.drop (nl + 1) = b := List.take_append_drop _ _
    have hlt : nl < b.length := findNl_lt_length hfind
    have hlen : (b.take (nl + 1)).length = nl + 1 := by
      rw [List.length_take]
      omega
    refine ⟨⟨b.take nl, ?_, (findNl_first hfind).2⟩, ?_, ?_⟩
    · exact (findNl_first hfind).1
    · rw [← List.append_assoc, hsplit, hjoin]
    · rw [hsplit, hfind, hlen]
      simp

theorem receive_line_unbounded_exact_witness :
    (∃ pre, ['h', 'i', '\n'] = pre ++ ['\n'] ∧ '\n' ∉ pre) ∧
    ['h', 'i', '\n'] ++ ([] ++ List.flatten ([] : List (List Char))) =
      ([] : List Char) ++ [['h', 'i', '\n']].flatten ∧
    findNl (['h', 'i', '\n'] ++ []) = some (['h', 'i', '\n'].length - 1) :=
  receive_line_unbounded_exact [] [['h', 'i', '\n']] ['h', 'i', '\n'] [] [] (by decide)

/-- C1 fails as stated: receive_line(buffer_size=2) can return a string longer
than 2.  A fresh call whose first newline arrives at index exactly 2 returns
all 3 characters (the truncation test nl > buffer_size does not fire when
nl = buffer_size), and a call whose carried-over line buffer already contains
a newline returns the whole line with no truncation at all (the truncation
test only runs inside the receive loop), here 5 characters. -/
theorem receive_line_bound_counterexample :
    (receive_line (some 2) [] [['a', 'a', '\n']] = some (['a', 'a', '\n'], [], []) ∧
      2 < ['a', 'a', '\n'].length) ∧
    (receive_line (some 2) ['a', 'a', 'a', 'a', '\n'] [] =
        some (['a', 'a', 'a', 'a', '\n'], [], []) ∧
      2 + 1 < ['a', 'a', 'a', 'a', '\n'].length) := by
  refine ⟨⟨by decide, by decide⟩, ⟨by decide, by decide⟩⟩

/-- C1 amended: provided the carried-over line buffer holds no newline when
the call starts, receive_line(buffer_size=N) with N >= 1 returns a string of
length at most N+1 (a complete line whose newline falls at index at most N is
delivered whole); when the returned line holds no newline it was truncated at
the bound and has exactly N characters; and the returned line, the kept line
buffer and the unconsumed chunks together reassemble the carried-over buffer
followed by all received chunks, so the undelivered suffix is kept unmodified
for the next call. -/
theorem receive_line_bounded_truncates (N : Nat) (hN : 1 ≤ N)
    (lineBuffer : List Char) (chunks : List (List Char))
    (line rest : List Char) (rem : List (List Char))
    (hbuf : findNl lineBuffer = none)
    (h : receive_line (some N) lineBuffer chunks = some (line, rest, rem)) :
    line.length ≤ N + 1 ∧ ('\n' ∉ line → line.length = N) ∧
    line ++ (rest ++ rem.flatten) = lineBuffer ++ chunks.flatten := by
  simp only [receive_line, Option.map_some'] at h
  rw [Nat.max_eq_right hN] at h
  rw [hbuf] at h
  cases hl : receiveLineLoop (some N) chunks none lineBuffer with
  | none => rw [hl] at h; simp at h
  | some v =>
    obtain ⟨nl, b, r⟩ := v
    rw [hl] at h
    simp only [Option.some.injEq, Prod.mk.injEq] at h
    obtain ⟨h1, h2, h3⟩ := h
    subst h1; subst h2; subst h3
    have hjoin : b ++ r.flatten = lineBuffer ++ chunks.flatten :=
      receiveLineLoop_join chunks _ lineBuffer hl
    have hsplit : b.take (nl + 1) ++ b.drop (nl + 1) = b := List.take_append_drop _ _
    have hconcat : b.take (nl + 1) ++ (b.drop (nl + 1) ++ r.flatten) =
        lineBuffer ++ chunks.flatten := by
      rw [← List.append_assoc, hsplit, hjoin]
    rcases receiveLineLoop_bounded chunks lineBuffer hl with ⟨hfind, hle⟩ | ⟨hnl, hblen, hk⟩
    · have hlt : nl < b.length := findNl_lt_length hfind
      have hlen : (b.take (nl + 1)).length = nl + 1 := by
        rw [List.length_take]; omega
      refine ⟨by omega, ?_, hconcat⟩
      intro hnot
      exfalso
      apply hnot
      rw [(findNl_first hfind).1]
      simp
    · subst hnl
      have hlen : (b.take (N - 1 + 1)).length = N := by
        rw [List.length_take]; omega
      exact ⟨by omega, fun _ => hlen, hconcat⟩

theorem receive_line_bounded_truncates_witness :
    1 ≤ 2 ∧
    (['a', 'b'].length ≤ 2 + 1 ∧ ('\n' ∉ ['a', 'b'] → ['a', 'b'].length = 2) ∧
      ['a', 'b'] ++ (['c', 'd', '\n'] ++ List.flatten ([] : List (List Char))) =
        ([] : List Char) ++ [['a', 'b', 'c', 'd', '\n']].flatten) :=
  ⟨by decide, receive_line_bounded_truncates 2 (by decide) [] [['a', 'b', 'c', 'd', '\n']]
    ['a', 'b'] ['c', 'd', '\n'] [] (by decide) (by decide)⟩

/-! ### Claims about _encode (C8) -/

/-- C8: the code rejects the raw-bytes payloads the claim says it accepts.
A bytes, bytearray or memoryview payload passes the isinstance check, but
bytes(buffer, encoding) then raises TypeError (encoding without a string
argument), so the payload is neither encoded for transmission nor reported as
InvalidBufferType.  A str payload is encoded, and payloads outside the four
buffer types do raise InvalidBufferType as claimed. -/
theorem encode_rejects_bytes_payload :
    Connection_encode (.bytes [104, 105]) (some ['u', 't', 'f', '8']) = .error .typeError ∧
    Connection_encode (.bytearray [104]) (some ['u', 't', 'f', '8']) = .error .typeError ∧
    Connection_encode (.memoryview [104]) (some ['u', 't', 'f', '8']) = .error .typeError ∧
    Connection_encode (.str ['h', 'i']) (some ['u', 't', 'f', '8']) = .ok (utf8Bytes ['h', 'i']) ∧
    Connection_encode (.int 3) (some ['u', 't', 'f', '8']) =
      .error (.connectionError E_INVALID_BUFFER_TYPE) ∧
    Connection_encode .noneVal (some ['u', 't', 'f', '8']) =
      .error (.connectionError E_INVALID_BUFFER_TYPE) ∧
    Connection_encode (.listVal [1]) (some ['u', 't', 'f', '8']) =
      .error (.connectionError E_INVALID_BUFFER_TYPE) :=
  ⟨rfl, rfl, rfl, rfl, rfl, rfl, rfl⟩

/-! ### Claims about the wait loops (C5) -/

theorem sockSendWait_skips (pre rest : List WaitObs)
    (hpre : ∀ p ∈ pre, p.disc = false ∧ p.write = false) :
    sockSendWait (pre ++ rest) = sockSendWait rest := by
  induction pre with
  | nil => rfl
  | cons q qs ih =>
    have hq := hpre q (by simp)
    simp only [List.cons_append, sockSendWait, hq.1, hq.2, if_false]
    exact ih (fun p hp => hpre p (by simp [hp]))

theorem sockRecvWait_skips (pre rest : List WaitObs)
    (hpre : ∀ p ∈ pre, p.disc = false ∧ p.read = false) :
    sockRecvWait (pre ++ rest) = sockRecvWait rest := by
  induction pre with
  | nil => rfl
  | cons q qs ih =>
    have hq := hpre q (by simp)
    simp only [List.cons_append, sockRecvWait, hq.1, hq.2, if_false]
    exact ih (fun p hp => hpre p (by simp [hp]))

theorem serialRecvWait_skips (pre rest : List SerialRecvObs)
    (hpre : ∀ p ∈ pre, p.reset = false ∧ p.disc = false ∧ p.buffered = []) :
    serialRecvWait (pre ++ rest) = serialRecvWait rest := by
  induction pre with
  | nil => rfl
  | cons q qs ih =>
    obtain ⟨h1, h2, h3⟩ := hpre q (by simp)
    simp only [List.cons_append, serialRecvWait, h1, h2, h3, List.isEmpty_nil, if_false,
      if_true, Bool.false_eq_true]
    exact ih (fun p hp => hpre p (by simp [hp]))

/-- C5 fails as stated on a serial connection: when the background reader has
recorded a connection reset, the disconnect property raises ConnectionReset
even though the external DisconnectSignal predicate evaluates to true at that
moment, so the waiting send call raises ConnectionReset rather than
ConnectionAborted. -/
theorem serial_reset_beats_abort_counterexample :
    serialSend ⟨true, true⟩ ['x'] (some ['u', 't', 'f', '8']) (.ok ()) =
      .error (.connectionError E_CONNECTION_RESET) ∧
    E_CONNECTION_RESET ≠ E_CONNECTION_ABORTED :=
  ⟨rfl, by decide⟩

/-- C5 amended: on a socket connection, when the disconnect predicate turns
true while send or receive is still waiting for readiness, the call raises
socket.error(ECONNABORTED) and transfers no bytes; once readiness is observed
first, the underlying transport error is surfaced to the caller unchanged.
On a serial connection send and receive behave the same way, except that a
connection reset recorded by the background reader takes precedence over the
predicate and surfaces as ConnectionError(E_CONNECTION_RESET); serial
transport errors are surfaced through exactly these channels - a write error
raises ConnectionReset from protocol.write and is surfaced unchanged, and a
read error observed by the background reader sets the reset flag and
surfaces as the ConnectionReset branch of the receive wait. -/
theorem wait_loops_abort_and_surface :
    (∀ (pre suf : List WaitObs) (o : WaitObs) (buffer : PyVal) (enc : Option (List Char))
      (sr : Except PyError Unit),
      (∀ p ∈ pre, p.disc = false ∧ p.write = false) → o.disc = true →
      socketSend (pre ++ o :: suf) buffer enc sr = some (.error (.socketError ECONNABORTED))) ∧
    (∀ (pre suf : List WaitObs) (o : WaitObs) (s : List Char) (enc : List Char) (err : PyError),
      (∀ p ∈ pre, p.disc = false ∧ p.write = false) → o.disc = false → o.write = true →
      socketSend (pre ++ o :: suf) (.str s) (some enc) (.error err) = some (.error err)) ∧
    (∀ (pre suf : List WaitObs) (o : WaitObs) (rr : Except PyError (List Nat)),
      (∀ p ∈ pre, p.disc = false ∧ p.read = false) → o.disc = true →
      socketReceive (pre ++ o :: suf) rr = some (.error (.socketError ECONNABORTED))) ∧
    (∀ (pre suf : List WaitObs) (o : WaitObs) (err : PyError),
      (∀ p ∈ pre, p.disc = false ∧ p.read = false) → o.disc = false → o.read = true →
      socketReceive (pre ++ o :: suf) (.error err) = some (.error err)) ∧
    (∀ (s : List Char) (enc : List Char) (wr : Except PyError Unit),
      s ≠ [] → serialSend ⟨true, false⟩ s (some enc) wr =
        .error (.connectionError E_CONNECTION_ABORTED)) ∧
    (∀ (d : Bool) (s : List Char) (enc : List Char) (wr : Except PyError Unit),
      s ≠ [] → serialSend ⟨d, true⟩ s (some enc) wr =
        .error (.connectionError E_CONNECTION_RESET)) ∧
    (∀ (s : List Char) (enc : List Char) (err : PyError),
      s ≠ [] → serialSend ⟨false, false⟩ s (some enc) (.error err) = .error err) ∧
    (∀ (pre suf : List SerialRecvObs) (o : SerialRecvObs) (bs : Nat),
      (∀ p ∈ pre, p.reset = false ∧ p.disc = false ∧ p.buffered = []) →
      o.disc = true → o.reset = false →
      serialReceive (pre ++ o :: suf) bs =
        some (.error (.connectionError E_CONNECTION_ABORTED))) ∧
    (∀ (pre suf : List SerialRecvObs) (o : SerialRecvObs) (bs : Nat),
      (∀ p ∈ pre, p.reset = false ∧ p.disc = false ∧ p.buffered = []) →
      o.reset = true →
      serialReceive (pre ++ o :: suf) bs =
        some (.error (.connectionError E_CONNECTION_RESET))) ∧
    (∀ (pre suf : List SerialRecvObs) (o : SerialRecvObs) (bs : Nat),
      (∀ p ∈ pre, p.reset = false ∧ p.disc = false ∧ p.buffered = []) →
      o.disc = false → o.reset = false → o.buffered ≠ [] →
      serialReceive (pre ++ o :: suf) bs =
        some (.ok (o.buffered.take (max 1 bs)))) := by
  refine ⟨?_, ?_, ?_, ?_, ?_, ?_, ?_, ?_, ?_, ?_⟩
  · intro pre suf o buffer enc sr hpre ho
    rw [socketSend, sockSendWait_skips pre _ hpre]
    simp [sockSendWait, ho]
  · intro pre suf o s enc err hpre ho hw
    rw [socketSend, sockSendWait_skips pre _ hpre]
    simp [sockSendWait, ho, hw, Connection_encode, isBufferLike, pyBytes]
  · intro pre suf o rr hpre ho
    rw [socketReceive.eq_def, sockRecvWait_skips pre _ hpre]
    simp [sockRecvWait, ho]
  · intro pre suf o err hpre ho hr
    rw [socketReceive.eq_def, sockRecvWait_skips pre _ hpre]
    simp [sockRecvWait, ho, hr]
  · intro s enc wr hs
    have hlen : ¬s.length = 0 := by simpa using hs
    simp [serialSend, hlen, serialDisconnect]
  · intro d s enc wr hs
    have hlen : ¬s.length = 0 := by simpa using hs
    simp [serialSend, hlen, serialDisconnect]
  · intro s enc err hs
    have hlen : ¬s.length = 0 := by simpa using hs
    simp [serialSend, hlen, serialDisconnect, Connection_encode, isBufferLike, pyBytes]
  · intro pre suf o bs hpre ho hr
    rw [serialReceive.eq_def, serialRecvWait_skips pre _ hpre]
    simp [serialRecvWait, ho, hr]
  · intro pre suf o bs hpre hr
    rw [serialReceive.eq_def, serialRecvWait_skips pre _ hpre]
    simp [serialRecvWait, hr]
  · intro pre suf o bs hpre ho hr hb
    rw [serialReceive.eq_def, serialRecvWait_skips pre _ hpre]
    simp [serialRecvWait, ho, hr, hb]

theorem wait_loops_abort_and_surface_witness :
    socketSend ([⟨false, false, false⟩] ++ ⟨true, false, false⟩ :: []) (.str ['x'])
      (some ['u', 't', 'f', '8']) (.ok ()) = some (.error (.socketError ECONNABORTED)) ∧
    socketSend ([] ++ ⟨false, true, true⟩ :: []) (.str ['x']) (some ['u', 't', 'f', '8'])
      (.error (.socketError EPIPE)) = some (.error (.socketError EPIPE)) ∧
    socketReceive ([⟨false, false, false⟩] ++ ⟨true, false, false⟩ :: []) (.ok [97]) =
      some (.error (.socketError ECONNABORTED)) ∧
    socketReceive ([] ++ ⟨false, true, false⟩ :: []) (.error (.socketError ECONNRESET)) =
      some (.error (.socketError ECONNRESET)) ∧
    serialSend ⟨true, false⟩ ['x'] (some ['u', 't', 'f', '8']) (.ok ()) =
      .error (.connectionError E_CONNECTION_ABORTED) ∧
    serialSend ⟨false, true⟩ ['x'] (some ['u', 't', 'f', '8']) (.ok ()) =
      .error (.connectionError E_CONNECTION_RESET) ∧
    serialSend ⟨false, false⟩ ['x'] (some ['u', 't', 'f', '8'])
      (.error (.connectionError E_CONNECTION_RESET)) =
      .error (.connectionError E_CONNECTION_RESET) ∧
    serialReceive ([⟨false, false, []⟩] ++ ⟨true, false, []⟩ :: []) 16 =
      some (.error (.connectionError E_CONNECTION_ABORTED)) ∧
    serialReceive ([] ++ ⟨true, true, []⟩ :: []) 16 =
      some (.error (.connectionError E_CONNECTION_RESET)) ∧
    serialReceive ([⟨false, false, []⟩] ++ ⟨false, false, [104, 105]⟩ :: []) 16 =
      some (.ok ([104, 105].take (max 1 16))) :=
  ⟨wait_loops_abort_and_surface.1 [⟨false, false, false⟩] [] ⟨true, false, false⟩
      (.str ['x']) (some ['u', 't', 'f', '8']) (.ok ()) (by decide) rfl,
   wait_loops_abort_and_surface.2.1 [] [] ⟨false, true, true⟩ ['x'] ['u', 't', 'f', '8']
      (.socketError EPIPE) (by decide) rfl rfl,
   wait_loops_abort_and_surface.2.2.1 [⟨false, false, false⟩] [] ⟨true, false, false⟩
      (.ok [97]) (by decide) rfl,
   wait_loops_abort_and_surface.2.2.2.1 [] [] ⟨false, true, false⟩
      (.socketError ECONNRESET) (by decide) rfl rfl,
   wait_loops_abort_and_surface.2.2.2.2.1 ['x'] ['u', 't', 'f', '8'] (.ok ()) (by decide),
   wait_loops_abort_and_surface.2.2.2.2.2.1 false ['x'] ['u', 't', 'f', '8'] (.ok ())
      (by decide),
   wait_loops_abort_and_surface.2.2.2.2.2.2.1 ['x'] ['u', 't', 'f', '8']
      (.connectionError E_CONNECTION_RESET) (by decide),
   wait_loops_abort_and_surface.2.2.2.2.2.2.2.1 [⟨false, false, []⟩] [] ⟨true, false, []⟩
      16 (by decide) rfl rfl,
   wait_loops_abort_and_surface.2.2.2.2.2.2.2.2.1 [] [] ⟨true, true, []⟩ 16
      (by decide) rfl,
   wait_loops_abort_and_surface.2.2.2.2.2.2.2.2.2 [⟨false, false, []⟩] []
      ⟨false, false, [104, 105]⟩ 16 (by decide) rfl rfl (by decide)⟩

/-! ### Claims about the forking disconnect closure (C2) -/

/-- C2 fails as stated: the closure consumes the one-shot disconnect message
rather than latching it.  On the pipe exactly as the parent's stop path
leaves it, the first evaluation returns true and empties the queue; the very
next evaluation returns false. -/
theorem disconnect_not_monotonic_counterexample :
    disconnectClosureStep parentStopPipe = (true, ⟨[]⟩) ∧
    disconnectClosureStep ⟨[]⟩ = (false, ⟨[]⟩) :=
  ⟨rfl, rfl⟩

/-- C2 amended: the DisconnectSignal of the forking strategy is a
non-latching one-shot: the evaluation that consumes the single queued
'disconnect' message returns true and empties the queue, and every
evaluation on a drained pipe returns false - because the parent sends the
message exactly once, no later evaluation during that handler invocation
returns true again. -/
theorem disconnect_one_shot :
    disconnectClosureStep ⟨[disconnectMessage]⟩ = (true, ⟨[]⟩) ∧
    (∀ p : PipeReadEnd, p.messages = [] → disconnectClosureStep p = (false, p)) := by
  constructor
  · simp [disconnectClosureStep]
  · intro p h
    obtain ⟨m⟩ := p
    simp only at h
    subst h
    rfl

theorem disconnect_one_shot_witness :
    disconnectClosureStep ⟨[]⟩ = (false, ⟨[]⟩) :=
  disconnect_one_shot.2 ⟨[]⟩ rfl

/-! ### Claims about the serve_until entry check (C9) -/

/-- C9: on a non-callable serve argument the check does run eagerly, before
the listen/accept loop, but the raise statement itself fails: the name
E_PARAMETER_IS_NOT_CALLABLE it references is not defined in the module
namespace (the Server package's Errors.py stops at E_HANDLER_NOT_CALLABLE),
so Python raises NameError at that line instead of the claimed ServerError
carrying the ParameterNotCallable kind. -/
theorem serve_until_noncallable_raises_name_error :
    serve_untilStart false = .raisedNameError "E_PARAMETER_IS_NOT_CALLABLE" ∧
    serve_untilStart true = .enteredAcceptLoop ∧
    socketServerModuleNames.contains "E_PARAMETER_IS_NOT_CALLABLE" = false := by
  refine ⟨by decide, rfl, by decide⟩

/-! ### Claims about the factories (C6) -/

/-- C6: the factories cannot construct any dispatcher.  The tcp entry of
Server.create_forking passes 4 positional arguments to
_ForkingTCPSocketServer.__init__, which requires 5, so
Server.create_forking('tcp', handler, address, port, max_connections) raises
TypeError before any server is built, and create_threading fails the same
way; even with matching arity the chain would fail because
_SocketServer.__init__ passes 3 arguments to the 2-parameter
Server.__init__; and this revision of the Server class defines no create
attribute at all, so the claimed iterative-equivalent default factory does
not exist. -/
theorem create_factories_raise_type_error :
    createForkingTCP 4 = .typeError ∧
    createThreadingTCP 4 = .typeError ∧
    bindsOk forkingTCPLambdaSig 4 = true ∧
    bindsOk forkingTCPInitSig forkingTCPLambdaBodyArgs = false ∧
    bindsOk serverBaseInitSig socketServerSuperArgs = false ∧
    serverClassAttrs.contains "create" = false := by
  refine ⟨rfl, rfl, by decide, by decide, by decide, by decide⟩

/-! ### Claims about the client loops (C7) -/

/-- C7: for both the socket and the serial client, a session in which the
handler raises ConnectionAborted is a graceful stop: regardless of the
reconnect throttle the client runs exactly that one session, closes the
transport exactly once, propagates no exception, and consumes none of the
oracle for further sessions - it terminates without any reconnection
attempt. -/
theorem client_abort_is_graceful_stop :
    (∀ (reconnect : Option Nat) (rest : List HandlerEnd),
      socketClientConnect reconnect (.aborted :: rest) = some ⟨1, 1, none⟩) ∧
    (∀ (reconnect : Option Nat) (rest : List (Bool × HandlerEnd)),
      serialClientConnect reconnect ((false, .aborted) :: rest) = some ⟨1, 1, none⟩) :=
  ⟨fun _ _ => rfl, fun _ _ => rfl⟩

theorem client_abort_is_graceful_stop_witness :
    socketClientConnect (some 1) (.aborted :: [.ret]) = some ⟨1, 1, none⟩ ∧
    serialClientConnect none ((false, .aborted) :: [(false, .ret)]) = some ⟨1, 1, none⟩ :=
  ⟨client_abort_is_graceful_stop.1 (some 1) [.ret],
   client_abort_is_graceful_stop.2 none [(false, .ret)]⟩

/-! ### Claims about the cleanup paths (C4) -/

theorem absorbAll_eq_none (p : Option HandlerOutcome) : absorbAll p = none := by
  cases p <;> rfl

/-- C4 fails as stated for the serial strategies: neither the forked child of
the serial forking server nor the handler thread of the serial threading
server ever closes the connection itself - their cleanup paths end without a
close (the dispatcher closes instead), so the connection is not closed in
the concurrency unit that ran its handler. -/
theorem serial_unit_does_not_close_counterexample :
    (forkingSerialChild (.returns (.int 0))).closesInUnit = 0 ∧
    (threadingSerialRun (.returns (.int 0))).closesInUnit = 0 :=
  ⟨rfl, rfl⟩

/-- C4 amended: for every handler outcome - normal return, absorbed
transport error, or any other raised exception - each strategy closes the
accepted connection exactly once via a cleanup path that always executes,
and no exception escapes the concurrency unit.  For the socket strategies
and the serial iterative strategy the close happens inside the unit that ran
the handler; for the serial threading strategy the unit performs no close
and the dispatcher closes exactly once after joining the handler thread; and
for the serial forking strategy the child performs no close and the parent
closes exactly once per dispatch cycle - either after waitpid reports the
child finished, or upon a stop request while the child may still be
running. -/
theorem connection_closed_exactly_once :
    (∀ out : HandlerOutcome,
      (forkingSocketChild out).closesInUnit = 1 ∧
      (threadingSocketRun out).closesInUnit = 1 ∧
      (iterativeSocketBody out).closesInUnit = 1 ∧
      (iterativeSerialBody out).closesInUnit = 1 ∧
      (forkingSerialChild out).closesInUnit = 0 ∧
      (threadingSerialRun out).closesInUnit = 0 ∧
      (forkingSocketChild out).escaped = false ∧
      (threadingSocketRun out).escaped = false ∧
      (iterativeSocketBody out).escaped = false ∧
      (iterativeSerialBody out).escaped = false ∧
      (forkingSerialChild out).escaped = false ∧
      (threadingSerialRun out).escaped = false ∧
      (forkingSocketChild out).exitStatus = some (normStatus out)) ∧
    (∀ (w : List (Bool × Bool)) (e : SerialParentExit),
      serialForkingParentWait w = some e → e.closes = 1) ∧
    threadingSerialDispatcherCloses = 1 := by
  refine ⟨?_, ?_, rfl⟩
  · intro out
    refine ⟨rfl, rfl, rfl, rfl, rfl, rfl, ?_, ?_, ?_, ?_, ?_, ?_, rfl⟩ <;>
      simp [forkingSocketChild, threadingSocketRun, iterativeSocketBody, iterativeSerialBody,
        forkingSerialChild, threadingSerialRun, absorbAll_eq_none]
  · intro w
    induction w with
    | nil => intro e h; simp [serialForkingParentWait] at h
    | cons p rest ih =>
      intro e h
      obtain ⟨srv, finished⟩ := p
      cases srv with
      | false =>
        simp [serialForkingParentWait] at h
        simp [← h]
      | true =>
        cases finished with
        | true =>
          simp [serialForkingParentWait] at h
          simp [← h]
        | false =>
          simp only [serialForkingParentWait, Bool.not_true, Bool.false_eq_true, if_false,
            if_neg] at h
          exact ih e h

theorem connection_closed_exactly_once_witness :
    (iterativeSerialBody (.raisesConnectionError E_CONNECTION_ABORTED)).closesInUnit = 1 ∧
    (forkingSerialChild (.raisesConnectionError E_CONNECTION_ABORTED)).closesInUnit = 0 ∧
    (⟨1, true⟩ : SerialParentExit).closes = 1 ∧
    (⟨1, false⟩ : SerialParentExit).closes = 1 :=
  ⟨(connection_closed_exactly_once.1 (.raisesConnectionError E_CONNECTION_ABORTED)).2.2.2.1,
   (connection_closed_exactly_once.1 (.raisesConnectionError E_CONNECTION_ABORTED)).2.2.2.2.1,
   connection_closed_exactly_once.2.1 [(true, true)] ⟨1, true⟩ rfl,
   connection_closed_exactly_once.2.1 [(true, false), (false, false)] ⟨1, false⟩ rfl⟩

/-! ### Claims about the bounded dispatch loops (C3) -/

theorem monoFalseB_allFalse {r : List Bool} (h : r.all (fun b => !b) = true) :
    monoFalseB r = true := by
  induction r with
  | nil => rfl
  | cons b r2 ih =>
    simp only [List.all_cons, Bool.and_eq_true] at h
    cases b with
    | true => simp at h
    | false => simpa [monoFalseB] using h.2

theorem monoFalseB_tail {b : Bool} {r : List Bool} (h : monoFalseB (b :: r) = true) :
    monoFalseB r = true := by
  cases b with
  | true => exact h
  | false => exact monoFalseB_allFalse h

theorem forkStep_inv {K : Nat} {s t : ForkSrvState}
    (hstep : ForkStep K s t) (hinv : ForkInv K s) : ForkInv K t := by
  obtain ⟨hlen, hmono, houter⟩ := hinv
  cases hstep with
  | outerStop hm hs =>
    rw [hs] at hmono
    exact ⟨hlen, monoFalseB_tail hmono, by intro h; simp at h⟩
  | outerTimeout hm hs ha =>
    have hlt : s.children.length < K := by
      rcases houter hm with h | h
      · exact h
      · rw [hs] at h; simp at h
    rw [hs] at hmono
    exact ⟨hlen, monoFalseB_tail hmono, fun _ => Or.inl hlt⟩
  | outerAccept hm hs ha =>
    have hlt : s.children.length < K := by
      rcases houter hm with h | h
      · exact h
      · rw [hs] at h; simp at h
    rw [hs] at hmono
    refine ⟨?_, monoFalseB_tail hmono, by intro h; simp at h⟩
    simp only [List.length_append, List.length_cons, List.length_nil]
    omega
  | outerForkFail hm hs ha =>
    rw [hs] at hmono
    exact ⟨hlen, monoFalseB_tail hmono, by intro h; simp at h⟩
  | innerStop hm hs =>
    rw [hs] at hmono
    exact ⟨hlen, monoFalseB_tail hmono, fun _ => Or.inr hmono⟩
  | innerScan hm hs hr =>
    rename_i r f fr
    have hflen : (s.children.filter (fun pid => !f.contains pid)).length ≤
        s.children.length := List.length_filter_le _ _
    rw [hs] at hmono
    refine ⟨by simp only; omega, monoFalseB_tail hmono, ?_⟩
    intro hmode
    by_cases hc : (s.children.filter (fun pid => !f.contains pid)).length < K
    · exact Or.inl hc
    · exfalso
      simp only [if_neg hc] at hmode
      exact absurd hmode (by simp)

theorem threadStep_inv {K : Nat} {s t : ThreadSrvState}
    (hstep : ThreadStep K s t) (hinv : ThreadInv K s) : ThreadInv K t := by
  obtain ⟨hlen, hmono, houter⟩ := hinv
  cases hstep with
  | outerStop hm hs =>
    rw [hs] at hmono
    exact ⟨hlen, monoFalseB_tail hmono, by intro h; simp at h⟩
  | outerTimeout hm hs ha =>
    have hlt : s.threads.length < K := by
      rcases houter hm with h | h
      · exact h
      · rw [hs] at h; simp at h
    rw [hs] at hmono
    exact ⟨hlen, monoFalseB_tail hmono, fun _ => Or.inl hlt⟩
  | outerAccept hm hs ha =>
    have hlt : s.threads.length < K := by
      rcases houter hm with h | h
      · exact h
      · rw [hs] at h; simp at h
    rw [hs] at hmono
    refine ⟨?_, monoFalseB_tail hmono, by intro h; simp at h⟩
    simp only [List.length_append, List.length_cons, List.length_nil]
    omega
  | innerStop hm hs =>
    rw [hs] at hmono
    exact ⟨hlen, monoFalseB_tail hmono, fun _ => Or.inr hmono⟩
  | innerScan hm hs hr =>
    rename_i r f fr
    have hflen : (s.threads.filter (fun tid => !f.contains tid)).length ≤
        s.threads.length := List.length_filter_le _ _
    rw [hs] at hmono
    refine ⟨by simp only; omega, monoFalseB_tail hmono, ?_⟩
    intro hmode
    by_cases hc : (s.threads.filter (fun tid => !f.contains tid)).length < K
    · exact Or.inl hc
    · exfalso
      simp only [if_neg hc] at hmode
      exact absurd hmode (by simp)

theorem forkReach_inv {K : Nat} {s t : ForkSrvState}
    (h : ForkReach K s t) (hinv : ForkInv K s) : ForkInv K t := by
  induction h with
  | refl => exact hinv
  | tail _ hstep ih => exact forkStep_inv hstep ih

theorem threadReach_inv {K : Nat} {s t : ThreadSrvState}
    (h : ThreadReach K s t) (hinv : ThreadInv K s) : ThreadInv K t := by
  induction h with
  | refl => exact hinv
  | tail _ hstep ih => exact threadStep_inv hstep ih

/-- C3: for both concurrent strategies, under the configuration contract
max_connections >= 1 and the spec's stop-signal contract that serve() is
monotone (once false always false), every state reachable in the
accept/dispatch/reap loop keeps the list of dispatched, not yet reaped units
at length at most max_connections; since every unit whose handler is still
running is in that list, at most max_connections handler invocations are
active at every step. -/
theorem max_connections_never_exceeded (K : Nat) (hK : 1 ≤ K) :
    (∀ (serves accepts : List Bool) (reaps : List (List Nat)) (s : ForkSrvState),
      monoFalseB serves = true →
      ForkReach K (forkInit serves accepts reaps) s → s.children.length ≤ K) ∧
    (∀ (serves accepts : List Bool) (deaths : List (List Nat)) (s : ThreadSrvState),
      monoFalseB serves = true →
      ThreadReach K (threadInit serves accepts deaths) s → s.threads.length ≤ K) := by
  constructor
  · intro serves accepts reaps s hmono hreach
    have hinit : ForkInv K (forkInit serves accepts reaps) :=
      ⟨by simp [forkInit], hmono, fun _ => Or.inl (by simp [forkInit]; omega)⟩
    exact (forkReach_inv hreach hinit).1
  · intro serves accepts deaths s hmono hreach
    have hinit : ThreadInv K (threadInit serves accepts deaths) :=
      ⟨by simp [threadInit], hmono, fun _ => Or.inl (by simp [threadInit]; omega)⟩
    exact (threadReach_inv hreach hinit).1

theorem max_connections_never_exceeded_witness :
    (⟨[false], [], [], [1], 2, .inner⟩ : ForkSrvState).children.length ≤ 1 ∧
    (⟨[false], [], [], [1], 2, .inner⟩ : ThreadSrvState).threads.length ≤ 1 :=
  ⟨(max_connections_never_exceeded 1 (by decide)).1 [true, false] [true] []
      ⟨[false], [], [], [1], 2, .inner⟩ (by decide)
      (Relation.ReflTransGen.single (ForkStep.outerAccept rfl rfl rfl)),
   (max_connections_never_exceeded 1 (by decide)).2 [true, false] [true] []
      ⟨[false], [], [], [1], 2, .inner⟩ (by decide)
      (Relation.ReflTransGen.single (ThreadStep.outerAccept rfl rfl rfl))⟩
